import Mathlib

/-!
Shallow embedding of src/cross_domain_integration_engine.py.

The file defines the data model of the engine core — the ModuleStatus and
DomainCategory enumerations, the CapabilitySignature and ModuleMetadata
dataclasses with their Firestore dictionary round-trip, and the
IntegrationMessage class with its constructor and validate method — and then
proves the specification claims about them.

Python dictionaries whose values are heterogeneous (`Dict[str, Any]`) are
embedded as association lists over the value type PyVal below; Python
truthiness is embedded explicitly.  Stateful methods (validate mutates the
message's error list) are embedded by explicit state passing.
-/

/-- Embedding of the Python values that flow through the engine's
dictionaries: None, booleans, integers, floats (as rationals — only
storage and comparison occur in the source, no float arithmetic),
strings, lists and string-keyed dictionaries. -/
inductive PyVal where
  | null : PyVal
  | bool : Bool → PyVal
  | int : Int → PyVal
  | float : Rat → PyVal
  | str : String → PyVal
  | list : List PyVal → PyVal
  | dict : List (String × PyVal) → PyVal

/-- Python truthiness for PyVal: None, False, 0, 0.0, the empty string,
the empty list and the empty dict are falsy; everything else is truthy. -/
def PyVal.truthy : PyVal → Bool
  | .null => false
  | .bool b => b
  | .int n => n != 0
  | .float q => q != 0
  | .str s => !s.isEmpty
  | .list xs => !xs.isEmpty
  | .dict kvs => !kvs.isEmpty

/-- The keys of a dict value (empty for non-dicts). -/
def PyVal.keys : PyVal → List String
  | .dict kvs => kvs.map Prod.fst
  | _ => []

/-- Dictionary lookup on a dict value. -/
def PyVal.get : PyVal → String → Option PyVal
  | .dict kvs, k => kvs.lookup k
  | _, _ => none

def PyVal.asStr : PyVal → Option String
  | .str s => some s
  | _ => none

def PyVal.asInt : PyVal → Option Int
  | .int n => some n
  | _ => none

def PyVal.asBool : PyVal → Option Bool
  | .bool b => some b
  | _ => none

def PyVal.asFloat : PyVal → Option Rat
  | .float q => some q
  | _ => none

def PyVal.asList : PyVal → Option (List PyVal)
  | .list xs => some xs
  | _ => none

def PyVal.asDict : PyVal → Option (List (String × PyVal))
  | .dict kvs => some kvs
  | _ => none

/-- Truthiness of an `Optional[str]` field: None and the empty string are
falsy ("absent"), a non-empty string is truthy ("present"). -/
def strOptTruthy : Option String → Bool
  | none => false
  | some s => !s.isEmpty

/-!
Model of the standard library `datetime` values the source stores in
ModuleMetadata.  The source only ever creates datetimes (datetime.utcnow),
stores them, and converts them to and from strings with isoformat /
fromisoformat, which are exact inverses on datetime values.  We therefore
represent an instant by its microsecond tick count and embed the
isoformat / fromisoformat pair as the decimal rendering of the tick count
and its parser, which have the same inversion property the source relies
on.
-/

structure DateTime where
  ticks : Nat
deriving DecidableEq

/-- The character of a decimal digit, by codepoint arithmetic. -/
def digitToChar (d : Nat) : Char :=
  Char.ofNat (48 + d)

/-- The numeric value of a decimal-digit character, by codepoint
arithmetic. -/
def charToDigit (c : Char) : Option Nat :=
  if 48 ≤ c.toNat ∧ c.toNat ≤ 57 then some (c.toNat - 48) else none

/-- Least-significant-first decimal digits, with explicit fuel so the
definition is structural (fuel `n` is always enough for value `n`). -/
def digitsRevGo : Nat → Nat → List Nat
  | 0, _ => []
  | _ + 1, 0 => []
  | fuel + 1, n + 1 => ((n + 1) % 10) :: digitsRevGo fuel ((n + 1) / 10)

/-- Most-significant-first decimal digits of a natural number. -/
def natDigits (n : Nat) : List Nat :=
  if n = 0 then [0] else (digitsRevGo n n).reverse

/-- Value of a least-significant-first digit list. -/
def ofDigitsRev : List Nat → Nat
  | [] => 0
  | d :: ds => d + 10 * ofDigitsRev ds

def parseDigitsGo : List Char → Nat → Option Nat
  | [], acc => some acc
  | c :: cs, acc =>
      match charToDigit c with
      | some d => parseDigitsGo cs (10 * acc + d)
      | none => none

/-- Parse a non-empty all-digit character list as a natural number. -/
def parseNat : List Char → Option Nat
  | [] => none
  | c :: cs => parseDigitsGo (c :: cs) 0

def DateTime.isoformat (d : DateTime) : String :=
  String.mk ((natDigits d.ticks).map digitToChar)

def DateTime.fromisoformat (s : String) : Option DateTime :=
  (parseNat s.data).map DateTime.mk

/-- Module lifecycle states (class ModuleStatus(Enum)). -/
inductive ModuleStatus where
  | REGISTERED : ModuleStatus
  | ACTIVE : ModuleStatus
  | DEGRADED : ModuleStatus
  | OFFLINE : ModuleStatus
  | DEPRECATED : ModuleStatus
  | ERROR : ModuleStatus
deriving DecidableEq

/-- The `.value` string of each ModuleStatus member. -/
def ModuleStatus.value : ModuleStatus → String
  | .REGISTERED => "registered"
  | .ACTIVE => "active"
  | .DEGRADED => "degraded"
  | .OFFLINE => "offline"
  | .DEPRECATED => "deprecated"
  | .ERROR => "error"

/-- `ModuleStatus(v)`: look a member up by its value, None embedding the
ValueError raised on an unknown value. -/
def ModuleStatus.ofValue : String → Option ModuleStatus
  | "registered" => some .REGISTERED
  | "active" => some .ACTIVE
  | "degraded" => some .DEGRADED
  | "offline" => some .OFFLINE
  | "deprecated" => some .DEPRECATED
  | "error" => some .ERROR
  | _ => none

/-- All members of ModuleStatus, in declaration order. -/
def ModuleStatus.members : List ModuleStatus :=
  [.REGISTERED, .ACTIVE, .DEGRADED, .OFFLINE, .DEPRECATED, .ERROR]

/-- Domain categories (class DomainCategory(Enum)). -/
inductive DomainCategory where
  | DATA_PROCESSING : DomainCategory
  | NLP : DomainCategory
  | COMPUTER_VISION : DomainCategory
  | REINFORCEMENT_LEARNING : DomainCategory
  | AUTONOMOUS_PLANNING : DomainCategory
  | API_INTEGRATION : DomainCategory
  | STORAGE : DomainCategory
  | MONITORING : DomainCategory
  | UNKNOWN : DomainCategory
deriving DecidableEq

/-- The `.value` string of each DomainCategory member. -/
def DomainCategory.value : DomainCategory → String
  | .DATA_PROCESSING => "data_processing"
  | .NLP => "natural_language_processing"
  | .COMPUTER_VISION => "computer_vision"
  | .REINFORCEMENT_LEARNING => "reinforcement_learning"
  | .AUTONOMOUS_PLANNING => "autonomous_planning"
  | .API_INTEGRATION => "api_integration"
  | .STORAGE => "storage"
  | .MONITORING => "monitoring"
  | .UNKNOWN => "unknown"

/-- `DomainCategory(v)`: look a member up by its value. -/
def DomainCategory.ofValue : String → Option DomainCategory
  | "data_processing" => some .DATA_PROCESSING
  | "natural_language_processing" => some .NLP
  | "computer_vision" => some .COMPUTER_VISION
  | "reinforcement_learning" => some .REINFORCEMENT_LEARNING
  | "autonomous_planning" => some .AUTONOMOUS_PLANNING
  | "api_integration" => some .API_INTEGRATION
  | "storage" => some .STORAGE
  | "monitoring" => some .MONITORING
  | "unknown" => some .UNKNOWN
  | _ => none

/-- All members of DomainCategory, in declaration order. -/
def DomainCategory.members : List DomainCategory :=
  [.DATA_PROCESSING, .NLP, .COMPUTER_VISION, .REINFORCEMENT_LEARNING,
   .AUTONOMOUS_PLANNING, .API_INTEGRATION, .STORAGE, .MONITORING, .UNKNOWN]

/-- @dataclass CapabilitySignature: structured definition of one capability.
The schemas are `Dict[str, Any]`, embedded as PyVal association lists. -/
structure CapabilitySignature where
  name : String
  input_schema : List (String × PyVal)
  output_schema : List (String × PyVal)
  description : String
  version : String
  requires_context : Bool
  timeout_seconds : Int
  is_async : Bool

/-- The dataclass constructor with every defaulted field at its default
(version "1.0.0", requires_context False, timeout_seconds 30,
is_async False). -/
def CapabilitySignature.initRequired (name : String)
    (input_schema output_schema : List (String × PyVal))
    (description : String) : CapabilitySignature :=
  { name := name
    input_schema := input_schema
    output_schema := output_schema
    description := description
    version := "1.0.0"
    requires_context := false
    timeout_seconds := 30
    is_async := false }

/-- `asdict(cap)`: the field dictionary of a CapabilitySignature, in field
declaration order. -/
def CapabilitySignature.asdict (c : CapabilitySignature) : List (String × PyVal) :=
  [("name", .str c.name),
   ("input_schema", .dict c.input_schema),
   ("output_schema", .dict c.output_schema),
   ("description", .str c.description),
   ("version", .str c.version),
   ("requires_context", .bool c.requires_context),
   ("timeout_seconds", .int c.timeout_seconds),
   ("is_async", .bool c.is_async)]

/-- `CapabilitySignature(**cap)`: rebuild a signature from a field
dictionary.  A missing key falls back to the dataclass default where one
exists; None embeds the TypeError / ill-typed cases a typed record cannot
hold. -/
def CapabilitySignature.fromKwargs (kvs : List (String × PyVal)) :
    Option CapabilitySignature := do
  let name ← (← kvs.lookup "name").asStr
  let input_schema ← (← kvs.lookup "input_schema").asDict
  let output_schema ← (← kvs.lookup "output_schema").asDict
  let version ←
    match kvs.lookup "version" with
    | none => some "1.0.0"
    | some v => v.asStr
  let description ← (← kvs.lookup "description").asStr
  let requires_context ←
    match kvs.lookup "requires_context" with
    | none => some false
    | some v => v.asBool
  let timeout_seconds ←
    match kvs.lookup "timeout_seconds" with
    | none => some (30 : Int)
    | some v => v.asInt
  let is_async ←
    match kvs.lookup "is_async" with
    | none => some false
    | some v => v.asBool
  pure { name := name
         input_schema := input_schema
         output_schema := output_schema
         description := description
         version := version
         requires_context := requires_context
         timeout_seconds := timeout_seconds
         is_async := is_async }

/-- @dataclass ModuleMetadata: comprehensive metadata for module
registration.  health_score is a Python float, embedded as Rat (the source
only stores and compares it). -/
structure ModuleMetadata where
  module_id : String
  module_name : String
  domain : DomainCategory
  version : String
  capabilities : List CapabilitySignature
  dependencies : List String
  status : ModuleStatus
  health_score : Rat
  last_heartbeat : Option DateTime
  created_at : DateTime
  updated_at : DateTime
  endpoint : Option String
  config_schema : Option (List (String × PyVal))

/-- The dataclass constructor with every field supplied explicitly; the
generated `__init__` performs plain field assignment and no validation. -/
def ModuleMetadata.initFull (module_id module_name : String)
    (domain : DomainCategory) (version : String)
    (capabilities : List CapabilitySignature) (dependencies : List String)
    (status : ModuleStatus) (health_score : Rat)
    (last_heartbeat : Option DateTime) (created_at updated_at : DateTime)
    (endpoint : Option String)
    (config_schema : Option (List (String × PyVal))) : ModuleMetadata :=
  { module_id := module_id
    module_name := module_name
    domain := domain
    version := version
    capabilities := capabilities
    dependencies := dependencies
    status := status
    health_score := health_score
    last_heartbeat := last_heartbeat
    created_at := created_at
    updated_at := updated_at
    endpoint := endpoint
    config_schema := config_schema }

/-- The dataclass constructor with only the required fields supplied: every
defaulted field takes its declared default.  `now` stands for the
`datetime.utcnow()` the default factories of created_at / updated_at call. -/
def ModuleMetadata.initRequired (now : DateTime) (module_id module_name : String)
    (domain : DomainCategory) (version : String)
    (capabilities : List CapabilitySignature) : ModuleMetadata :=
  { module_id := module_id
    module_name := module_name
    domain := domain
    version := version
    capabilities := capabilities
    dependencies := []
    status := .REGISTERED
    health_score := 1
    last_heartbeat := none
    created_at := now
    updated_at := now
    endpoint := none
    config_schema := none }

/-- `ModuleMetadata.to_dict`: asdict(self) followed by the overrides the
method applies — enum values for domain and status, asdict per capability,
isoformat for created_at / updated_at, and isoformat for last_heartbeat
only when it is set (a None last_heartbeat stays None in the dict). -/
def ModuleMetadata.to_dict (m : ModuleMetadata) : List (String × PyVal) :=
  [("module_id", .str m.module_id),
   ("module_name", .str m.module_name),
   ("domain", .str m.domain.value),
   ("version", .str m.version),
   ("capabilities", .list (m.capabilities.map (fun c => .dict c.asdict))),
   ("dependencies", .list (m.dependencies.map PyVal.str)),
   ("status", .str m.status.value),
   ("health_score", .float m.health_score),
   ("last_heartbeat",
      match m.last_heartbeat with
      | some d => .str d.isoformat
      | none => .null),
   ("created_at", .str m.created_at.isoformat),
   ("updated_at", .str m.updated_at.isoformat),
   ("endpoint",
      match m.endpoint with
      | some s => .str s
      | none => .null),
   ("config_schema",
      match m.config_schema with
      | some kvs => .dict kvs
      | none => .null)]

/-- Decode the capabilities entry: `[CapabilitySignature(**cap) for cap in
data['capabilities']]`. -/
def decodeCapList : List PyVal → Option (List CapabilitySignature)
  | [] => some []
  | v :: vs => do
      let c ← (← v.asDict) |> CapabilitySignature.fromKwargs
      let cs ← decodeCapList vs
      pure (c :: cs)

/-- Decode a list of string values (the dependencies entry). -/
def decodeStrList : List PyVal → Option (List String)
  | [] => some []
  | v :: vs => do
      let s ← v.asStr
      let ss ← decodeStrList vs
      pure (s :: ss)

/-- A date field of the incoming dict: converted with fromisoformat when
present and truthy, left as None when null (the method's
`if date_field in data and data[date_field]` guard). -/
def decodeDateOpt : PyVal → Option (Option DateTime)
  | .null => some none
  | .str s => (DateTime.fromisoformat s).map some
  | _ => none

/-- Look a key up in the dict and decode it with the given decoder. -/
def getAs (f : PyVal → Option A) (data : List (String × PyVal))
    (k : String) : Option A :=
  (data.lookup k).bind f

/-- Decode an `Optional[str]` entry (the endpoint field). -/
def decodeStrOpt : PyVal → Option (Option String)
  | .null => some none
  | .str s => some (some s)
  | _ => none

/-- Decode an `Optional[Dict]` entry (the config_schema field). -/
def decodeDictOpt : PyVal → Option (Option (List (String × PyVal)))
  | .null => some none
  | .dict kvs => some (some kvs)
  | _ => none

/-- `ModuleMetadata.from_dict`: rebuild the record from a Firestore
dictionary — enums looked up by value, capabilities rebuilt with
`CapabilitySignature(**cap)`, date strings parsed with fromisoformat, and
the rest handed to the dataclass constructor.  None embeds the
KeyError / ValueError / TypeError raised on malformed input. -/
def ModuleMetadata.from_dict (data : List (String × PyVal)) :
    Option ModuleMetadata :=
  match getAs PyVal.asStr data "module_id",
        getAs PyVal.asStr data "module_name",
        getAs (fun v => v.asStr.bind DomainCategory.ofValue) data "domain",
        getAs PyVal.asStr data "version",
        getAs (fun v => v.asList.bind decodeCapList) data "capabilities",
        getAs (fun v => v.asList.bind decodeStrList) data "dependencies",
        getAs (fun v => v.asStr.bind ModuleStatus.ofValue) data "status",
        getAs PyVal.asFloat data "health_score",
        getAs decodeDateOpt data "last_heartbeat",
        getAs (fun v => v.asStr.bind DateTime.fromisoformat) data "created_at",
        getAs (fun v => v.asStr.bind DateTime.fromisoformat) data "updated_at",
        getAs decodeStrOpt data "endpoint",
        getAs decodeDictOpt data "config_schema" with
  | some module_id, some module_name, some domain, some version,
    some capabilities, some dependencies, some status, some health_score,
    some last_heartbeat, some created_at, some updated_at, some endpoint,
    some config_schema =>
      some (ModuleMetadata.initFull module_id module_name domain version
        capabilities dependencies status health_score last_heartbeat
        created_at updated_at endpoint config_schema)
  | _, _, _, _, _, _, _, _, _, _, _, _, _ => none

/-- class IntegrationMessage: the communication envelope.  payload, context
and metadata are `Any` / dict-valued and embedded as PyVal; the optional
string fields keep their Optional type. -/
structure IntegrationMessage where
  message_id : String
  source_module : Option String
  target_module : Option String
  capability : Option String
  payload : PyVal
  context : PyVal
  metadata : PyVal
  errors : List String

/-- The default metadata dict built in `__init__` when the metadata
argument is falsy; `now` stands for `datetime.utcnow().isoformat()`. -/
def defaultMetadata (now : String) : PyVal :=
  .dict [("created_at", .str now), ("priority", .str "normal"),
         ("retry_count", .int 0)]

/-- `IntegrationMessage.__init__`.  `freshId` stands for the
`str(uuid.uuid4())` generated when message_id is falsy and `now` for
`datetime.utcnow().isoformat()`; both are parameters so the embedding is
deterministic.  Each `x or default` of the source becomes an explicit
truthiness test. -/
def IntegrationMessage.init (freshId now : String)
    (message_id source_module target_module capability : Option String)
    (payload context metadata : PyVal) : IntegrationMessage :=
  { message_id :=
      match message_id with
      | some s => if s.isEmpty then freshId else s
      | none => freshId
    source_module := source_module
    target_module := target_module
    capability := capability
    payload := if payload.truthy then payload else .dict []
    context := if context.truthy then context else .dict []
    metadata := if metadata.truthy then metadata else defaultMetadata now
    errors := [] }

/-- `IntegrationMessage.validate`: appends "Missing source_module" when
source_module is falsy, then "Missing capability" when capability is falsy,
and returns whether the error list is empty.  The mutation of self.errors
is embedded by returning the updated message alongside the Bool. -/
def IntegrationMessage.validate (m : IntegrationMessage) :
    Bool × IntegrationMessage :=
  let e1 := if strOptTruthy m.source_module then m.errors
            else m.errors ++ ["Missing source_module"]
  let e2 := if strOptTruthy m.capability then e1
            else e1 ++ ["Missing capability"]
  (e2.length == 0, { m with errors := e2 })

/-- The message state after n successive calls of validate. -/
def validateIter : Nat → IntegrationMessage → IntegrationMessage
  | 0, m => m
  | n + 1, m => ((validateIter n m).validate).2

/-- A concrete message with both required fields present, as constructed. -/
def msgPresent : IntegrationMessage :=
  { message_id := "id-1"
    source_module := some "mod-a"
    target_module := none
    capability := some "cap-x"
    payload := .dict []
    context := .dict []
    metadata := .dict [("created_at", .str "t0"), ("priority", .str "normal"),
                       ("retry_count", .int 0)]
    errors := [] }

/-- A concrete message missing its capability field, as constructed. -/
def msgNoCap : IntegrationMessage :=
  { message_id := "id-2"
    source_module := some "mod-a"
    target_module := none
    capability := none
    payload := .dict []
    context := .dict []
    metadata := .dict [("created_at", .str "t0"), ("priority", .str "normal"),
                       ("retry_count", .int 0)]
    errors := [] }

/-! Decimal rendering lemmas for the DateTime string round-trip. -/

lemma ofDigitsRev_digitsRevGo :
    ∀ fuel n : Nat, n ≤ fuel → ofDigitsRev (digitsRevGo fuel n) = n := by
  intro fuel
  induction fuel with
  | zero =>
      intro n h
      have hn : n = 0 := by omega
      subst hn
      simp [digitsRevGo, ofDigitsRev]
  | succ f ih =>
      intro n h
      match n with
      | 0 => simp [digitsRevGo, ofDigitsRev]
      | k + 1 =>
          have hlt : (k + 1) / 10 < k + 1 :=
            Nat.div_lt_self (Nat.succ_pos k) (by norm_num)
          have hfuel : (k + 1) / 10 ≤ f := by omega
          simp [digitsRevGo, ofDigitsRev, ih _ hfuel]
          omega

lemma digitsRevGo_lt_ten :
    ∀ fuel n : Nat, ∀ d ∈ digitsRevGo fuel n, d < 10 := by
  intro fuel
  induction fuel with
  | zero => intro n d hd; simp [digitsRevGo] at hd
  | succ f ih =>
      intro n d hd
      match n with
      | 0 => simp [digitsRevGo] at hd
      | k + 1 =>
          simp only [digitsRevGo, List.mem_cons] at hd
          rcases hd with h | h
          · omega
          · exact ih _ _ h

lemma charToDigit_digitToChar (d : Nat) (hd : d < 10) :
    charToDigit (digitToChar d) = some d := by
  interval_cases d <;> rfl

lemma parseDigitsGo_map :
    ∀ (ds : List Nat) (acc : Nat), (∀ d ∈ ds, d < 10) →
      parseDigitsGo (ds.map digitToChar) acc =
        some (ds.foldl (fun a d => 10 * a + d) acc) := by
  intro ds
  induction ds with
  | nil => intro acc _; rfl
  | cons d ds ih =>
      intro acc h
      have hd : d < 10 := h d (List.mem_cons_self d ds)
      simp only [List.map_cons, parseDigitsGo, charToDigit_digitToChar d hd,
        List.foldl_cons]
      exact ih _ (fun x hx => h x (List.mem_cons_of_mem d hx))

lemma foldl_reverse_ofDigitsRev :
    ∀ (l : List Nat) (acc : Nat),
      l.reverse.foldl (fun a d => 10 * a + d) acc =
        acc * 10 ^ l.length + ofDigitsRev l := by
  intro l
  induction l with
  | nil => intro acc; simp [ofDigitsRev]
  | cons d ds ih =>
      intro acc
      simp only [List.reverse_cons, List.foldl_append, List.foldl_cons,
        List.foldl_nil, ih, ofDigitsRev, List.length_cons]
      ring

lemma parseNat_cons (c : Char) (cs : List Char) :
    parseNat (c :: cs) = parseDigitsGo (c :: cs) 0 := rfl

lemma parseNat_print_digits (l : List Nat) (hl : l ≠ [])
    (hd : ∀ d ∈ l, d < 10) :
    parseNat (l.reverse.map digitToChar) = some (ofDigitsRev l) := by
  have hrev : l.reverse ≠ [] := by
    simpa using hl
  obtain ⟨c, cs, hcs⟩ : ∃ c cs, l.reverse.map digitToChar = c :: cs := by
    match h : l.reverse.map digitToChar with
    | [] =>
        exfalso
        rcases List.map_eq_nil_iff.mp h with h'
        exact hrev h'
    | c :: cs => exact ⟨c, cs, rfl⟩
  rw [hcs, parseNat_cons, ← hcs]
  rw [parseDigitsGo_map _ _ (fun d hdm => hd d (List.mem_reverse.mp hdm))]
  rw [foldl_reverse_ofDigitsRev]
  simp

lemma parseNat_natDigits (n : Nat) :
    parseNat ((natDigits n).map digitToChar) = some n := by
  match n with
  | 0 => rfl
  | k + 1 =>
      have h1 : natDigits (k + 1) = (digitsRevGo (k + 1) (k + 1)).reverse := by
        simp [natDigits]
      rw [h1]
      have hne : digitsRevGo (k + 1) (k + 1) ≠ [] := by
        simp [digitsRevGo]
      rw [parseNat_print_digits _ hne (digitsRevGo_lt_ten _ _)]
      rw [ofDigitsRev_digitsRevGo _ _ (le_refl _)]

lemma DateTime.fromisoformat_isoformat (d : DateTime) :
    DateTime.fromisoformat d.isoformat = some d := by
  simp [DateTime.fromisoformat, DateTime.isoformat, parseNat_natDigits]

/-! Round-trip lemmas for the enum values and the capability dictionaries. -/

lemma ModuleStatus.ofValue_of_value (s : ModuleStatus) :
    ModuleStatus.ofValue s.value = some s := by
  cases s <;> rfl

lemma DomainCategory.value_roundtrip (d : DomainCategory) :
    DomainCategory.ofValue d.value = some d := by
  cases d <;> rfl

lemma CapabilitySignature.fromKwargs_asdict (c : CapabilitySignature) :
    CapabilitySignature.fromKwargs c.asdict = some c := rfl

lemma decodeCapList_map (l : List CapabilitySignature) :
    decodeCapList (l.map (fun c => PyVal.dict c.asdict)) = some l := by
  induction l with
  | nil => rfl
  | cons c cs ih =>
      simp [decodeCapList, PyVal.asDict, CapabilitySignature.fromKwargs_asdict,
        ih]

lemma decodeStrList_map (l : List String) :
    decodeStrList (l.map PyVal.str) = some l := by
  induction l with
  | nil => rfl
  | cons s ss ih => simp [decodeStrList, PyVal.asStr, ih]

/-! Helper lemmas about validate. -/

lemma validate_errors (m : IntegrationMessage) :
    m.validate.2.errors = m.errors
      ++ ((if strOptTruthy m.source_module then []
           else ["Missing source_module"])
        ++ (if strOptTruthy m.capability then []
            else ["Missing capability"])) := by
  by_cases hs : strOptTruthy m.source_module <;>
    by_cases hc : strOptTruthy m.capability <;>
      simp [IntegrationMessage.validate, hs, hc]

lemma validate_fst_eq (m : IntegrationMessage) :
    m.validate.1 = (m.validate.2.errors.length == 0) := rfl

lemma validate_source_module (m : IntegrationMessage) :
    m.validate.2.source_module = m.source_module := rfl

lemma validate_capability (m : IntegrationMessage) :
    m.validate.2.capability = m.capability := rfl

lemma validateIter_source_module (n : Nat) (m : IntegrationMessage) :
    (validateIter n m).source_module = m.source_module := by
  induction n with
  | zero => rfl
  | succ k ih => rw [validateIter, validate_source_module, ih]

lemma validateIter_capability (n : Nat) (m : IntegrationMessage) :
    (validateIter n m).capability = m.capability := by
  induction n with
  | zero => rfl
  | succ k ih => rw [validateIter, validate_capability, ih]

lemma validateIter_errors_succ (n : Nat) (m : IntegrationMessage) :
    (validateIter (n + 1) m).errors = (validateIter n m).errors
      ++ ((if strOptTruthy m.source_module then []
           else ["Missing source_module"])
        ++ (if strOptTruthy m.capability then []
            else ["Missing capability"])) := by
  rw [validateIter, validate_errors, validateIter_source_module,
    validateIter_capability]

lemma validate_false_of_capability_missing (m : IntegrationMessage)
    (hc : strOptTruthy m.capability = false) : m.validate.1 = false := by
  rw [validate_fst_eq, validate_errors, hc]
  by_cases hs : strOptTruthy m.source_module <;> simp [hs]

lemma validate_false_of_source_missing (m : IntegrationMessage)
    (hs : strOptTruthy m.source_module = false) : m.validate.1 = false := by
  rw [validate_fst_eq, validate_errors, hs]
  by_cases hc : strOptTruthy m.capability <;> simp [hc]

/-! The claims. -/

/-- C1: for every message whose error list is empty — as it is on every
freshly constructed message — validate() returns true if and only if both
source_module and capability are present (non-empty); when source_module
is absent the string "Missing source_module" is appended to the errors
list, when capability is absent "Missing capability" is appended, and no
other field of the message is touched. -/
theorem validate_requires_source_and_capability (m : IntegrationMessage)
    (h : m.errors = []) :
    ((m.validate.1 = true) ↔
      (strOptTruthy m.source_module = true ∧ strOptTruthy m.capability = true))
    ∧ m.validate.2.errors =
        ((if strOptTruthy m.source_module then []
          else ["Missing source_module"])
          ++ (if strOptTruthy m.capability then []
              else ["Missing capability"]))
    ∧ m.validate.2.message_id = m.message_id
    ∧ m.validate.2.source_module = m.source_module
    ∧ m.validate.2.target_module = m.target_module
    ∧ m.validate.2.capability = m.capability
    ∧ m.validate.2.payload = m.payload
    ∧ m.validate.2.context = m.context
    ∧ m.validate.2.metadata = m.metadata := by
  by_cases hs : strOptTruthy m.source_module <;>
    by_cases hc : strOptTruthy m.capability <;>
      simp [IntegrationMessage.validate, h, hs, hc]

/-- Witness for C1: a concrete fully-populated message validates
successfully. -/
theorem validate_requires_source_and_capability_witness :
    msgPresent.validate.1 = true :=
  (validate_requires_source_and_capability msgPresent rfl).1.mpr (by decide)

/-- C2 counterexample: the ModuleMetadata constructor accepts an
out-of-range health score of 2.0 — the value is stored as given, neither
rejected with an error nor clamped, so the claimed invariant fails. -/
theorem initFull_accepts_out_of_range_health_score :
    (ModuleMetadata.initFull "m1" "Module One" .UNKNOWN "1.0.0" [] []
      .REGISTERED 2 none ⟨0⟩ ⟨0⟩ none none).health_score = 2
    ∧ ¬ (ModuleMetadata.initFull "m1" "Module One" .UNKNOWN "1.0.0" [] []
      .REGISTERED 2 none ⟨0⟩ ⟨0⟩ none none).health_score ≤ 1 := by
  refine ⟨rfl, ?_⟩
  norm_num [ModuleMetadata.initFull]

/-- C2 (amended): the dataclass defaults health_score to 1.0, which lies
in [0.0, 1.0], but does not enforce the range — the generated constructor
stores whatever health score it is given, unchanged (there is neither a
rejection nor a clamp anywhere in the source). -/
theorem health_score_stored_unchanged (module_id module_name : String)
    (domain : DomainCategory) (version : String)
    (capabilities : List CapabilitySignature) (dependencies : List String)
    (status : ModuleStatus) (health_score : Rat)
    (last_heartbeat : Option DateTime) (created_at updated_at : DateTime)
    (endpoint : Option String)
    (config_schema : Option (List (String × PyVal))) (now : DateTime) :
    (ModuleMetadata.initFull module_id module_name domain version
      capabilities dependencies status health_score last_heartbeat
      created_at updated_at endpoint config_schema).health_score
        = health_score
    ∧ (ModuleMetadata.initRequired now module_id module_name domain version
        capabilities).health_score = 1
    ∧ (0 : Rat) ≤ (ModuleMetadata.initRequired now module_id module_name
        domain version capabilities).health_score
    ∧ (ModuleMetadata.initRequired now module_id module_name domain version
        capabilities).health_score ≤ 1 := by
  refine ⟨rfl, rfl, ?_, ?_⟩ <;> norm_num [ModuleMetadata.initRequired]

/-- C3 counterexample: the ModuleMetadata constructor accepts a record
whose two capabilities share the name "f" — construction succeeds and the
duplicate names are stored, so no InvalidSignature failure protects the
claimed uniqueness invariant. -/
theorem initFull_accepts_duplicate_capability_names :
    ((ModuleMetadata.initFull "m1" "Module One" .UNKNOWN "1.0.0"
      [CapabilitySignature.initRequired "f" [] [] "first",
       CapabilitySignature.initRequired "f" [] [] "second"] []
      .REGISTERED 1 none ⟨0⟩ ⟨0⟩ none none).capabilities.map
        CapabilitySignature.name = ["f", "f"])
    ∧ ¬ ((ModuleMetadata.initFull "m1" "Module One" .UNKNOWN "1.0.0"
      [CapabilitySignature.initRequired "f" [] [] "first",
       CapabilitySignature.initRequired "f" [] [] "second"] []
      .REGISTERED 1 none ⟨0⟩ ⟨0⟩ none none).capabilities.map
        CapabilitySignature.name).Nodup := by
  refine ⟨rfl, ?_⟩
  simp [ModuleMetadata.initFull, CapabilitySignature.initRequired]

/-- C3 (amended): the capabilities list is stored exactly as supplied by
the caller — the generated constructor performs no uniqueness check on
capability names, so a duplicated name is silently preserved rather than
rejected with InvalidSignature (no register operation exists in the
source). -/
theorem capabilities_stored_unchanged (module_id module_name : String)
    (domain : DomainCategory) (version : String)
    (capabilities : List CapabilitySignature) (dependencies : List String)
    (status : ModuleStatus) (health_score : Rat)
    (last_heartbeat : Option DateTime) (created_at updated_at : DateTime)
    (endpoint : Option String)
    (config_schema : Option (List (String × PyVal))) (now : DateTime) :
    (ModuleMetadata.initFull module_id module_name domain version
      capabilities dependencies status health_score last_heartbeat
      created_at updated_at endpoint config_schema).capabilities
        = capabilities
    ∧ (ModuleMetadata.initRequired now module_id module_name domain version
        capabilities).capabilities = capabilities :=
  ⟨rfl, rfl⟩

/-- C4: a message constructed with no message_id and no metadata argument
gets a non-empty message_id (the generated uuid4 string, which is never
empty), a metadata dictionary with exactly the keys created_at, priority
and retry_count where retry_count is 0, and an empty errors list. -/
theorem init_generates_id_and_default_metadata (freshId now : String)
    (hId : freshId ≠ "") (src tgt cap : Option String)
    (payload context : PyVal) :
    (IntegrationMessage.init freshId now none src tgt cap payload context
      .null).message_id ≠ ""
    ∧ (IntegrationMessage.init freshId now none src tgt cap payload context
        .null).metadata = defaultMetadata now
    ∧ (IntegrationMessage.init freshId now none src tgt cap payload context
        .null).metadata.keys = ["created_at", "priority", "retry_count"]
    ∧ (IntegrationMessage.init freshId now none src tgt cap payload context
        .null).metadata.get "retry_count" = some (.int 0)
    ∧ (IntegrationMessage.init freshId now none src tgt cap payload context
        .null).errors = [] := by
  refine ⟨?_, rfl, rfl, rfl, rfl⟩
  simpa [IntegrationMessage.init] using hId

/-- Witness for C4 at a concrete uuid4 string and timestamp. -/
theorem init_generates_id_and_default_metadata_witness :
    (IntegrationMessage.init "123e4567-e89b-12d3-a456-426614174000"
      "2026-01-01T00:00:00" none (some "mod-a") none (some "cap-x")
      .null .null .null).message_id ≠ ""
    ∧ (IntegrationMessage.init "123e4567-e89b-12d3-a456-426614174000"
        "2026-01-01T00:00:00" none (some "mod-a") none (some "cap-x")
        .null .null .null).metadata = defaultMetadata "2026-01-01T00:00:00"
    ∧ (IntegrationMessage.init "123e4567-e89b-12d3-a456-426614174000"
        "2026-01-01T00:00:00" none (some "mod-a") none (some "cap-x")
        .null .null .null).metadata.keys
          = ["created_at", "priority", "retry_count"]
    ∧ (IntegrationMessage.init "123e4567-e89b-12d3-a456-426614174000"
        "2026-01-01T00:00:00" none (some "mod-a") none (some "cap-x")
        .null .null .null).metadata.get "retry_count" = some (.int 0)
    ∧ (IntegrationMessage.init "123e4567-e89b-12d3-a456-426614174000"
        "2026-01-01T00:00:00" none (some "mod-a") none (some "cap-x")
        .null .null .null).errors = [] :=
  init_generates_id_and_default_metadata
    "123e4567-e89b-12d3-a456-426614174000" "2026-01-01T00:00:00"
    (by decide) (some "mod-a") none (some "cap-x") .null .null

/-- C5: a ModuleMetadata record constructed with only the required fields
supplied has lifecycle status REGISTERED and a null last_heartbeat. -/
theorem initRequired_status_registered_heartbeat_none (now : DateTime)
    (module_id module_name : String) (domain : DomainCategory)
    (version : String) (capabilities : List CapabilitySignature) :
    (ModuleMetadata.initRequired now module_id module_name domain version
      capabilities).status = .REGISTERED
    ∧ (ModuleMetadata.initRequired now module_id module_name domain version
        capabilities).last_heartbeat = none :=
  ⟨rfl, rfl⟩

/-- C6: ModuleStatus is a closed enumeration with exactly the six states
REGISTERED, ACTIVE, DEGRADED, OFFLINE, DEPRECATED and ERROR: every value
is one of the six listed members, the members are pairwise distinct, and
there are six of them. -/
theorem moduleStatus_is_closed_enumeration :
    (∀ s : ModuleStatus, s ∈ ModuleStatus.members)
    ∧ ModuleStatus.members.Nodup
    ∧ ModuleStatus.members.length = 6 := by
  refine ⟨fun s => ?_, by decide, rfl⟩
  cases s <;> simp [ModuleStatus.members]

/-- C7: DomainCategory is a closed enumeration with exactly the nine
categories data_processing, natural_language_processing, computer_vision,
reinforcement_learning, autonomous_planning, api_integration, storage,
monitoring and unknown: every value is one of the nine listed members, the
members are pairwise distinct, and there are nine of them. -/
theorem domainCategory_is_closed_enumeration :
    (∀ d : DomainCategory, d ∈ DomainCategory.members)
    ∧ DomainCategory.members.Nodup
    ∧ DomainCategory.members.length = 9 := by
  refine ⟨fun d => ?_, by decide, rfl⟩
  cases d <;> simp [DomainCategory.members]

/-- C8: for every ModuleMetadata record — any domain, status, optional
last_heartbeat present or absent, and any capabilities —
from_dict is a left inverse of to_dict: serializing to the persistence
dictionary and deserializing reconstructs the record exactly. -/
theorem from_dict_after_to_dict_id (m : ModuleMetadata) :
    ModuleMetadata.from_dict m.to_dict = some m := by
  obtain ⟨mid, mname, dom, ver, caps, deps, st, hs, lhb, ca, ua, ep, cs⟩ := m
  cases lhb <;> cases ep <;> cases cs <;>
    simp [ModuleMetadata.to_dict, ModuleMetadata.from_dict, getAs,
      List.lookup, PyVal.asStr, PyVal.asFloat, PyVal.asList,
      decodeDateOpt, decodeStrOpt, decodeDictOpt,
      ModuleStatus.ofValue_of_value, DomainCategory.value_roundtrip,
      DateTime.fromisoformat_isoformat, decodeCapList_map, decodeStrList_map,
      ModuleMetadata.initFull]

/-- C9: the IntegrationMessage constructor replaces any falsy payload,
context or metadata argument with its default: a falsy payload becomes the
empty dict, a falsy context becomes the empty dict, and a falsy metadata
is replaced by the generated default metadata. -/
theorem init_replaces_falsy_arguments (freshId now : String)
    (message_id src tgt cap : Option String) (p c md : PyVal) :
    (p.truthy = false →
      (IntegrationMessage.init freshId now message_id src tgt cap
        p c md).payload = .dict [])
    ∧ (c.truthy = false →
      (IntegrationMessage.init freshId now message_id src tgt cap
        p c md).context = .dict [])
    ∧ (md.truthy = false →
      (IntegrationMessage.init freshId now message_id src tgt cap
        p c md).metadata = defaultMetadata now) := by
  refine ⟨fun hp => ?_, fun hc => ?_, fun hm => ?_⟩ <;>
    simp_all [IntegrationMessage.init]

/-- Witness for C9 at the falsy arguments 0, "" and None. -/
theorem init_replaces_falsy_arguments_witness :
    (IntegrationMessage.init "u1" "t1" none none none none
      (.int 0) (.str "") .null).payload = .dict []
    ∧ (IntegrationMessage.init "u1" "t1" none none none none
        (.int 0) (.str "") .null).context = .dict []
    ∧ (IntegrationMessage.init "u1" "t1" none none none none
        (.int 0) (.str "") .null).metadata = defaultMetadata "t1" :=
  ⟨(init_replaces_falsy_arguments "u1" "t1" none none none none
      (.int 0) (.str "") .null).1 (by decide),
   (init_replaces_falsy_arguments "u1" "t1" none none none none
      (.int 0) (.str "") .null).2.1 (by decide),
   (init_replaces_falsy_arguments "u1" "t1" none none none none
      (.int 0) (.str "") .null).2.2 rfl⟩

/-- C10: validate() accumulates rather than resets errors: starting from a
message with an empty error list, if capability is absent then after n
calls the errors list holds exactly n copies of "Missing capability" and
the next call still returns false; likewise for source_module and
"Missing source_module". -/
theorem validate_accumulates_errors (m : IntegrationMessage)
    (h : m.errors = []) (n : Nat) :
    (strOptTruthy m.capability = false →
      ((validateIter n m).errors.count "Missing capability" = n
        ∧ (validateIter n m).validate.1 = false))
    ∧ (strOptTruthy m.source_module = false →
      ((validateIter n m).errors.count "Missing source_module" = n
        ∧ (validateIter n m).validate.1 = false)) := by
  constructor
  · intro hc
    constructor
    · induction n with
      | zero => simp [validateIter, h]
      | succ k ih =>
          rw [validateIter_errors_succ, List.count_append, ih, hc]
          by_cases hs : strOptTruthy m.source_module <;> simp [hs]
    · exact validate_false_of_capability_missing _
        (by rw [validateIter_capability]; exact hc)
  · intro hs
    constructor
    · induction n with
      | zero => simp [validateIter, h]
      | succ k ih =>
          rw [validateIter_errors_succ, List.count_append, ih, hs]
          by_cases hc : strOptTruthy m.capability <;> simp [hc]
    · exact validate_false_of_source_missing _
        (by rw [validateIter_source_module]; exact hs)

/-- Witness for C10: three validations of a message with no capability
leave three copies of "Missing capability" and validate still false. -/
theorem validate_accumulates_errors_witness :
    (validateIter 3 msgNoCap).errors.count "Missing capability" = 3
    ∧ (validateIter 3 msgNoCap).validate.1 = false :=
  (validate_accumulates_errors msgNoCap rfl 3).1 rfl
